import Mathlib

/-!
Verification of the Citra FS archive service (`src/core/hle/service/fs/archive.cpp`)
against its natural-language specification.

The C++ file is embedded shallowly:
* `ResultCode` is the structured 4-field result value; `raw` is its numeric
  wire encoding written into command-buffer words.
* The archive type registry (`id_code_map`) and the open-instance table
  (`handle_map`) are association lists; `next_handle` is the allocation
  counter.  The registry/table operations (`OpenArchive`, `CloseArchive`,
  `RegisterArchiveType`, `FormatArchive`, the cross-archive renames) are
  direct transcriptions of the C++ functions.
* `File.SyncRequest` / `Directory.SyncRequest` embed the two command
  dispatchers.  The guest command buffer is a word function `Nat → Nat`;
  backend calls are recorded as an event trace so that "no backend work was
  performed" is expressible.
Machine integers are `Nat` with explicit reductions modulo `2 ^ 32` / `2 ^ 64`
exactly where the C++ performs a truncation or uses a fixed-width counter.
-/

set_option autoImplicit false

namespace ArchiveSvc

/-- Width constant for `u32` truncations (`static_cast<u32>` in the source). -/
def U32_MOD : Nat := 2 ^ 32

/-- Width constant for the 64-bit `ArchiveHandle` counter. -/
def U64_MOD : Nat := 2 ^ 64

/-- Error description field of a result code (subset used by archive.cpp). -/
inductive ErrorDescription where
  | FS_NotFound
  | NoData
  | InvalidHandle
  | NotFound
  | NotImplemented
  deriving DecidableEq, Repr

/-- Error module field; archive.cpp only ever uses the FS module. -/
inductive ErrorModule where
  | FS
  deriving DecidableEq, Repr

/-- Error summary field of a result code (subset used by archive.cpp). -/
inductive ErrorSummary where
  | NotSupported
  | InvalidArgument
  | NotFound
  | Canceled
  | NothingHappened
  deriving DecidableEq, Repr

/-- Error level field of a result code (subset used by archive.cpp). -/
inductive ErrorLevel where
  | Permanent
  | Status
  deriving DecidableEq, Repr

/-- A kernel result value: either the success sentinel or a 4-field error
tuple `(description, module, summary, level)`. -/
inductive ResultCode where
  | success
  | error (description : ErrorDescription) (module_ : ErrorModule)
      (summary : ErrorSummary) (level : ErrorLevel)
  deriving DecidableEq, Repr

/-- Modelled from the spec: numeric code of each error description
(`result.h` is an external collaborator, outside this repository slice).
Only injectivity and being nonzero matter; all codes are at least 1. -/
def ErrorDescription.code : ErrorDescription → Nat
  | .FS_NotFound => 1
  | .NoData => 2
  | .InvalidHandle => 3
  | .NotFound => 4
  | .NotImplemented => 5

/-- Modelled from the spec: numeric code of the error module. -/
def ErrorModule.code : ErrorModule → Nat
  | .FS => 1

/-- Modelled from the spec: numeric code of each error summary. -/
def ErrorSummary.code : ErrorSummary → Nat
  | .NotSupported => 1
  | .InvalidArgument => 2
  | .NotFound => 3
  | .Canceled => 4
  | .NothingHappened => 5

/-- Modelled from the spec: numeric code of each error level. -/
def ErrorLevel.code : ErrorLevel → Nat
  | .Permanent => 1
  | .Status => 2

/-- Modelled from the spec: the numeric wire encoding of a result code, as
written into a `u32` status word.  The success sentinel is `0`; every error
encodes its four fields injectively into a nonzero value below `2 ^ 32`. -/
def ResultCode.raw : ResultCode → Nat
  | .success => 0
  | .error d m s l => d.code + 10 * m.code + 100 * s.code + 1000 * l.code

/-- `RESULT_SUCCESS` from the kernel result header. -/
def RESULT_SUCCESS : ResultCode := ResultCode.success

/-- `ERR_INVALID_HANDLE` as defined at the top of archive.cpp:
`(InvalidHandle, FS, InvalidArgument, Permanent)`. -/
def ERR_INVALID_HANDLE : ResultCode :=
  ResultCode.error .InvalidHandle .FS .InvalidArgument .Permanent

/-- Modelled from the spec: `UnimplementedFunction(module)` from `result.h`
(external to this slice), the generic "Unimplemented" error of the taxonomy. -/
def UnimplementedFunction (m : ErrorModule) : ResultCode :=
  ResultCode.error .NotImplemented m .NotSupported .Permanent

/-- A `FileSys::Path`: an opaque addressing blob transported unchanged. -/
abbrev Path := List Nat

/-- The archive id codes registered by this service. -/
inductive ArchiveIdCode where
  | RomFS
  | SaveData
  | ExtSaveData
  | SharedExtSaveData
  | SystemSaveData
  | SDMC
  | SaveDataCheck
  deriving DecidableEq, BEq, Repr

/-- Modelled from the spec: the file backend capability (`FileBackend` is an
external collaborator).  `Read offset length` and `Write offset length flush`
return the actual byte count transferred; `GetSize` the current size. -/
structure FileBackend where
  Read : Nat → Nat → Nat
  Write : Nat → Nat → Nat → Nat
  GetSize : Nat

/-- Modelled from the spec: the directory backend capability.
`Read count` returns the number of entries actually read. -/
structure DirectoryBackend where
  Read : Nat → Nat

/-- Modelled from the spec: the archive backend capability (only the
operations the claims exercise).  `objId` stands for the C++ object address:
two backend pointers compare equal exactly when their `objId`s coincide. -/
structure ArchiveBackend where
  objId : Nat
  RenameFile : Path → Path → Bool
  RenameDirectory : Path → Path → Bool

/-- Modelled from the spec: the archive factory capability
`{Open(path) -> Backend | Error, Format(path) -> Result}`. -/
structure ArchiveFactory where
  Open : Path → Except ResultCode ArchiveBackend
  Format : Path → ResultCode

/-- Membership test of a key in an association list
(`map.count(key) != 0` / `map.find(key) != map.end()` in the source). -/
def hasKey {κ α : Type} [BEq κ] (m : List (κ × α)) (k : κ) : Bool :=
  m.any fun p => p.fst == k

/-- Lookup of a key in an association list (`map.find` + dereference). -/
def lookupKey {κ α : Type} [BEq κ] (m : List (κ × α)) (k : κ) : Option α :=
  (m.find? fun p => p.fst == k).map Prod.snd

/-- Removal of a key from an association list (`map.erase(key)`). -/
def eraseKey {κ α : Type} [BEq κ] (m : List (κ × α)) (k : κ) : List (κ × α) :=
  m.filter fun p => p.fst != k

/-- The mutable state of the FS service: the type registry `id_code_map`,
the open-instance table `handle_map`, and the counter `next_handle`. -/
structure FSState where
  idCodeMap : List (ArchiveIdCode × ArchiveFactory)
  handleMap : List (Nat × ArchiveBackend)
  nextHandle : Nat

/-- `GetArchive(handle)`: table lookup, `none` when the handle is absent
(the C++ returns `nullptr`). -/
def GetArchive (s : FSState) (handle : Nat) : Option ArchiveBackend :=
  lookupKey s.handleMap handle

/-- The collision-skip loop of `OpenArchive`:
`while (handle_map.count(next_handle) != 0) ++next_handle;` with the 64-bit
wraparound of the C++ counter made explicit.  The fuel bounds the number of
iterations; `handle_map.length + 1` probes always suffice (pigeonhole). -/
def findFree (m : List (Nat × ArchiveBackend)) (h : Nat) : Nat → Nat
  | 0 => h
  | Nat.succ fuel => if hasKey m h then findFree m ((h + 1) % U64_MOD) fuel else h

/-- The handle produced by the collision-skip loop starting at `next`. -/
def allocHandle (m : List (Nat × ArchiveBackend)) (next : Nat) : Nat :=
  findFree m next (m.length + 1)

/-- `OpenArchive(id_code, archive_path)`: resolve the factory (`NotFound`
error if unregistered), open the backend (propagating the factory error via
`CASCADE_RESULT`), then allocate the next unused handle, insert, and
post-increment the counter. -/
def OpenArchive (s : FSState) (idCode : ArchiveIdCode) (archivePath : Path) :
    Except ResultCode Nat × FSState :=
  match lookupKey s.idCodeMap idCode with
  | none =>
    (Except.error (ResultCode.error .NotFound .FS .NotFound .Permanent), s)
  | some factory =>
    match factory.Open archivePath with
    | Except.error e => (Except.error e, s)
    | Except.ok res =>
      let h := allocHandle s.handleMap s.nextHandle
      (Except.ok h,
        { s with handleMap := (h, res) :: s.handleMap,
                 nextHandle := (h + 1) % U64_MOD })

/-- `CloseArchive(handle)`: `ERR_INVALID_HANDLE` when `erase` removed
nothing, otherwise success with the entry removed. -/
def CloseArchive (s : FSState) (handle : Nat) : ResultCode × FSState :=
  if hasKey s.handleMap handle then
    (RESULT_SUCCESS, { s with handleMap := eraseKey s.handleMap handle })
  else
    (ERR_INVALID_HANDLE, s)

/-- Outcome of `RegisterArchiveType`: either the fatal `ASSERT_MSG` fires
(duplicate id code) and the program aborts, or the factory is inserted and
the function returns a result code. -/
inductive RegisterOutcome where
  | fatalAssert
  | registered (newMap : List (ArchiveIdCode × ArchiveFactory)) (code : ResultCode)

/-- `RegisterArchiveType(factory, id_code)`: `emplace` into the registry;
if the key was already present the insertion fails and
`ASSERT_MSG(inserted, ...)` aborts; otherwise returns `RESULT_SUCCESS`. -/
def RegisterArchiveType (m : List (ArchiveIdCode × ArchiveFactory))
    (factory : ArchiveFactory) (idCode : ArchiveIdCode) : RegisterOutcome :=
  if hasKey m idCode then
    RegisterOutcome.fatalAssert
  else
    RegisterOutcome.registered ((idCode, factory) :: m) RESULT_SUCCESS

/-- `FormatArchive(id_code, path)`: `UnimplementedFunction(FS)` when the id
code is unregistered (with a `TODO(Subv): Find the right error` comment in
the source), otherwise the factory's `Format(path)`. -/
def FormatArchive (m : List (ArchiveIdCode × ArchiveFactory))
    (idCode : ArchiveIdCode) (p : Path) : ResultCode :=
  match lookupKey m idCode with
  | none => UnimplementedFunction ErrorModule.FS
  | some factory => factory.Format p

/-- `RenameFileBetweenArchives`: invalid handle if either lookup fails;
same backend pointer: delegate to `RenameFile` (success, else the
`(NoData, FS, NothingHappened, Status)` fall-through); different pointers:
`UnimplementedFunction(FS)`. -/
def RenameFileBetweenArchives (s : FSState) (srcArchiveHandle : Nat)
    (srcPath : Path) (destArchiveHandle : Nat) (destPath : Path) : ResultCode :=
  match GetArchive s srcArchiveHandle, GetArchive s destArchiveHandle with
  | some srcArchive, some destArchive =>
    if srcArchive.objId = destArchive.objId then
      if srcArchive.RenameFile srcPath destPath then
        RESULT_SUCCESS
      else
        ResultCode.error .NoData .FS .NothingHappened .Status
    else
      UnimplementedFunction ErrorModule.FS
  | _, _ => ERR_INVALID_HANDLE

/-- `RenameDirectoryBetweenArchives`: same structure as the file variant,
delegating to `RenameDirectory`. -/
def RenameDirectoryBetweenArchives (s : FSState) (srcArchiveHandle : Nat)
    (srcPath : Path) (destArchiveHandle : Nat) (destPath : Path) : ResultCode :=
  match GetArchive s srcArchiveHandle, GetArchive s destArchiveHandle with
  | some srcArchive, some destArchive =>
    if srcArchive.objId = destArchive.objId then
      if srcArchive.RenameDirectory srcPath destPath then
        RESULT_SUCCESS
      else
        ResultCode.error .NoData .FS .NothingHappened .Status
    else
      UnimplementedFunction ErrorModule.FS
  | _, _ => ERR_INVALID_HANDLE

/-- The `FileCommand` opcode values (bit-exact from the enum). -/
def FileCommand.Dummy1 : Nat := 0x000100C6

def FileCommand.Control : Nat := 0x040100C4

def FileCommand.OpenSubFile : Nat := 0x08010100

def FileCommand.Read : Nat := 0x080200C2

def FileCommand.Write : Nat := 0x08030102

def FileCommand.GetSize : Nat := 0x08040000

def FileCommand.SetSize : Nat := 0x08050080

def FileCommand.GetAttributes : Nat := 0x08060000

def FileCommand.SetAttributes : Nat := 0x08070040

def FileCommand.Close : Nat := 0x08080000

def FileCommand.Flush : Nat := 0x08090000

def FileCommand.SetPriority : Nat := 0x080A0040

def FileCommand.GetPriority : Nat := 0x080B0000

def FileCommand.OpenLinkFile : Nat := 0x080C0000

/-- The full `FileCommand` opcode table, in declaration order. -/
def fileCommandTable : List Nat :=
  [FileCommand.Dummy1, FileCommand.Control, FileCommand.OpenSubFile,
   FileCommand.Read, FileCommand.Write, FileCommand.GetSize,
   FileCommand.SetSize, FileCommand.GetAttributes, FileCommand.SetAttributes,
   FileCommand.Close, FileCommand.Flush, FileCommand.SetPriority,
   FileCommand.GetPriority, FileCommand.OpenLinkFile]

/-- The `DirectoryCommand` opcode values (bit-exact from the enum). -/
def DirectoryCommand.Dummy1 : Nat := 0x000100C6

def DirectoryCommand.Control : Nat := 0x040100C4

def DirectoryCommand.Read : Nat := 0x08010042

def DirectoryCommand.Close : Nat := 0x08020000

/-- The full `DirectoryCommand` opcode table, in declaration order. -/
def dirCommandTable : List Nat :=
  [DirectoryCommand.Dummy1, DirectoryCommand.Control,
   DirectoryCommand.Read, DirectoryCommand.Close]

/-- A `File` session object: its path, the mutable `priority` property
(default 0), and the exclusively owned backend. -/
structure File where
  path : Path
  priority : Nat
  backend : FileBackend

/-- A `Directory` session object: its path and the owned backend. -/
structure Directory where
  path : Path
  backend : DirectoryBackend

/-- Point update of the guest command buffer (`cmd_buff[i] = v`). -/
def updWord (buf : Nat → Nat) (i v : Nat) : Nat → Nat :=
  fun j => if j = i then v else buf j

/-- Backend calls the file dispatcher can make, recorded as a trace so that
"performed no backend work" is a statement about the dispatch itself. -/
inductive FileEvent where
  | readCall (offset length : Nat)
  | writeCall (offset length flush : Nat)
  | getSizeCall
  | setSizeCall (size : Nat)
  | closeCall
  | flushCall
  | openLinkCall
  deriving DecidableEq, Repr

/-- Backend calls the directory dispatcher can make. -/
inductive DirEvent where
  | readCall (count : Nat)
  | closeCall
  deriving DecidableEq, Repr

/-- Result of one `File::SyncRequest` dispatch: the updated command buffer,
the updated file object, the backend-call trace, and the function result. -/
structure FileSyncOut where
  cmdBuff : Nat → Nat
  file : File
  events : List FileEvent
  result : Except ResultCode Bool

/-- Result of one `Directory::SyncRequest` dispatch. -/
structure DirSyncOut where
  cmdBuff : Nat → Nat
  events : List DirEvent
  result : Except ResultCode Bool

/-- `File::SyncRequest`: decode `cmd_buff[0]` and switch.  Handled commands
write their response words, then the post-switch code writes the success
sentinel into `cmd_buff[1]` and returns `MakeResult<bool>(false)`; the
default branch writes the `Unimplemented` error into `cmd_buff[1]` and
returns that error.  `linkHandle` is the kernel handle that
`g_handle_table.Create(this)` (external) yields in the `OpenLinkFile` stub;
guest memory reached through `Memory::GetPointer` is external and the data
movement is summarized by the byte counts the backend reports. -/
def File.SyncRequest (f : File) (cmdBuff : Nat → Nat) (linkHandle : Nat) :
    FileSyncOut :=
  let cmd := cmdBuff 0
  if cmd = FileCommand.Read then
    let offset := cmdBuff 1 % U32_MOD + (cmdBuff 2 % U32_MOD) * U32_MOD
    let length := cmdBuff 3
    let buf := updWord cmdBuff 2 (f.backend.Read offset length % U32_MOD)
    ⟨updWord buf 1 RESULT_SUCCESS.raw, f, [.readCall offset length],
      Except.ok false⟩
  else if cmd = FileCommand.Write then
    let offset := cmdBuff 1 % U32_MOD + (cmdBuff 2 % U32_MOD) * U32_MOD
    let length := cmdBuff 3
    let flush := cmdBuff 4
    let buf := updWord cmdBuff 2 (f.backend.Write offset length flush % U32_MOD)
    ⟨updWord buf 1 RESULT_SUCCESS.raw, f, [.writeCall offset length flush],
      Except.ok false⟩
  else if cmd = FileCommand.GetSize then
    let size := f.backend.GetSize
    let buf := updWord (updWord cmdBuff 2 (size % U32_MOD)) 3 (size / U32_MOD % U32_MOD)
    ⟨updWord buf 1 RESULT_SUCCESS.raw, f, [.getSizeCall], Except.ok false⟩
  else if cmd = FileCommand.SetSize then
    let size := cmdBuff 1 % U32_MOD + (cmdBuff 2 % U32_MOD) * U32_MOD
    ⟨updWord cmdBuff 1 RESULT_SUCCESS.raw, f, [.setSizeCall size], Except.ok false⟩
  else if cmd = FileCommand.Close then
    ⟨updWord cmdBuff 1 RESULT_SUCCESS.raw, f, [.closeCall], Except.ok false⟩
  else if cmd = FileCommand.Flush then
    ⟨updWord cmdBuff 1 RESULT_SUCCESS.raw, f, [.flushCall], Except.ok false⟩
  else if cmd = FileCommand.OpenLinkFile then
    let buf := updWord cmdBuff 3 linkHandle
    ⟨updWord buf 1 RESULT_SUCCESS.raw, f, [.openLinkCall], Except.ok false⟩
  else if cmd = FileCommand.SetPriority then
    ⟨updWord cmdBuff 1 RESULT_SUCCESS.raw, { f with priority := cmdBuff 1 },
      [], Except.ok false⟩
  else if cmd = FileCommand.GetPriority then
    let buf := updWord cmdBuff 2 f.priority
    ⟨updWord buf 1 RESULT_SUCCESS.raw, f, [], Except.ok false⟩
  else
    ⟨updWord cmdBuff 1 (UnimplementedFunction ErrorModule.FS).raw, f, [],
      Except.error (UnimplementedFunction ErrorModule.FS)⟩

/-- `Directory::SyncRequest`: decode `cmd_buff[0]` and switch.  `Read` and
`Close` write their responses and the success status; the default branch
writes the `Unimplemented` error into `cmd_buff[1]` but still returns
`MakeResult<bool>(false)` from the function. -/
def Directory.SyncRequest (d : Directory) (cmdBuff : Nat → Nat) : DirSyncOut :=
  let cmd := cmdBuff 0
  if cmd = DirectoryCommand.Read then
    let count := cmdBuff 1
    let buf := updWord cmdBuff 2 (d.backend.Read count)
    ⟨updWord buf 1 RESULT_SUCCESS.raw, [.readCall count], Except.ok false⟩
  else if cmd = DirectoryCommand.Close then
    ⟨updWord cmdBuff 1 RESULT_SUCCESS.raw, [.closeCall], Except.ok false⟩
  else
    ⟨updWord cmdBuff 1 (UnimplementedFunction ErrorModule.FS).raw, [],
      Except.ok false⟩

/-! Concrete sample instances used to exercise the operations. -/

/-- A backend whose renames always succeed (object identity 0). -/
def bkA : ArchiveBackend := ⟨0, fun _ _ => true, fun _ _ => true⟩

/-- A backend whose renames always fail (object identity 1). -/
def bkB : ArchiveBackend := ⟨1, fun _ _ => false, fun _ _ => false⟩

/-- A factory whose `Open` succeeds with `bkA` and whose `Format` succeeds. -/
def facOkA : ArchiveFactory := ⟨fun _ => Except.ok bkA, fun _ => RESULT_SUCCESS⟩

/-- A factory whose `Open` and `Format` fail with distinctive errors. -/
def facErr : ArchiveFactory :=
  ⟨fun _ => Except.error (ResultCode.error .FS_NotFound .FS .NotFound .Status),
   fun _ => ResultCode.error .NoData .FS .Canceled .Status⟩

/-- A file backend that always transfers 5 bytes on read. -/
def fbPartial : FileBackend := ⟨fun _ _ => 5, fun _ _ _ => 0, 0⟩

/-- A sample open file with priority 7 over `fbPartial`. -/
def sampleFile : File := ⟨[], 7, fbPartial⟩

/-- A sample open directory. -/
def sampleDir : Directory := ⟨[], ⟨fun _ => 0⟩⟩

/-- A command buffer holding only the opcode `c`. -/
def opcodeBuf (c : Nat) : Nat → Nat := fun i => if i = 0 then c else 0

/-- A `Read` command buffer requesting 10 bytes. -/
def readBuf : Nat → Nat :=
  fun i => if i = 0 then FileCommand.Read else if i = 3 then 10 else 0

/-- The freshly initialized service state (registry and table empty,
`next_handle = 1` as set by `ArchiveInit`). -/
def stateEmpty : FSState := ⟨[], [], 1⟩

/-- A state with one registered factory that opens successfully. -/
def stateRegOk : FSState := ⟨[(ArchiveIdCode.SDMC, facOkA)], [], 1⟩

/-- A state with one registered factory whose `Open` fails. -/
def stateRegErr : FSState := ⟨[(ArchiveIdCode.SDMC, facErr)], [], 1⟩

/-- A state with a single open archive at handle 5. -/
def stateOne : FSState := ⟨[], [(5, bkA)], 6⟩

/-- A state with two distinct open archives at handles 1 and 2. -/
def stateTwo : FSState := ⟨[], [(1, bkA), (2, bkB)], 3⟩

/-- A state whose single open archive has a failing rename backend. -/
def stateOneFail : FSState := ⟨[], [(4, bkB)], 5⟩

/-! Helper lemmas about association lists. -/

theorem lookupKey_eraseKey {κ α : Type} [BEq κ] (m : List (κ × α)) (k : κ) :
    lookupKey (eraseKey m k) k = none := by
  have hfind : (eraseKey m k).find? (fun p => p.fst == k) = none := by
    rw [List.find?_eq_none]
    intro x hx
    have hmem := (List.mem_filter.mp hx).2
    simp only [bne, Bool.not_eq_true'] at hmem
    simp [hmem]
  simp [lookupKey, hfind]

/-! Claim theorems. -/

/-- Claim C7: `CloseArchive` returns `InvalidHandle` for a handle absent
from the instance table; for a present handle it removes the entry and
returns success, so a subsequent `GetArchive` of that handle is absent. -/
theorem close_archive_semantics (s : FSState) (h : Nat) :
    (hasKey s.handleMap h = false → CloseArchive s h = (ERR_INVALID_HANDLE, s)) ∧
    (hasKey s.handleMap h = true →
      (CloseArchive s h).fst = RESULT_SUCCESS ∧
      GetArchive (CloseArchive s h).snd h = none) := by
  constructor
  · intro hk
    simp [CloseArchive, hk]
  · intro hk
    refine ⟨by simp [CloseArchive, hk], ?_⟩
    simp [CloseArchive, hk, GetArchive, lookupKey_eraseKey]

/-- Witness for C7 at handle 9 (absent) and handle 5 (present) of a
concrete one-entry table. -/
theorem close_archive_semantics_witness :
    (CloseArchive stateOne 9 = (ERR_INVALID_HANDLE, stateOne)) ∧
    ((CloseArchive stateOne 5).fst = RESULT_SUCCESS ∧
      GetArchive (CloseArchive stateOne 5).snd 5 = none) :=
  ⟨(close_archive_semantics stateOne 9).1 rfl,
   (close_archive_semantics stateOne 5).2 rfl⟩

/-- Claim C5: `OpenArchive` fails with the `NotFound` error when the id
code is unregistered; when the registered factory's `Open` fails, the
factory's error is returned unchanged. -/
theorem open_archive_error_paths (s : FSState) (idCode : ArchiveIdCode) (p : Path) :
    (lookupKey s.idCodeMap idCode = none →
      (OpenArchive s idCode p).fst =
        Except.error (ResultCode.error .NotFound .FS .NotFound .Permanent)) ∧
    (∀ factory e, lookupKey s.idCodeMap idCode = some factory →
      factory.Open p = Except.error e →
      (OpenArchive s idCode p).fst = Except.error e) := by
  constructor
  · intro hl
    simp [OpenArchive, hl]
  · intro factory e hl he
    simp [OpenArchive, hl, he]

/-- Witness for C5: an empty registry yields `NotFound`; a registry whose
factory fails to open surfaces that factory's exact error. -/
theorem open_archive_error_paths_witness :
    ((OpenArchive stateEmpty ArchiveIdCode.SDMC []).fst =
      Except.error (ResultCode.error .NotFound .FS .NotFound .Permanent)) ∧
    ((OpenArchive stateRegErr ArchiveIdCode.SDMC []).fst =
      Except.error (ResultCode.error .FS_NotFound .FS .NotFound .Status)) :=
  ⟨(open_archive_error_paths stateEmpty ArchiveIdCode.SDMC []).1 rfl,
   (open_archive_error_paths stateRegErr ArchiveIdCode.SDMC []).2 facErr
     (ResultCode.error .FS_NotFound .FS .NotFound .Status) rfl rfl⟩

/-- Claim C6: registering a duplicate id code hits the fatal assertion
(aborting, not overwriting or erroring); a fresh id code inserts the
factory and returns success. -/
theorem register_archive_type_duplicate_fatal
    (m : List (ArchiveIdCode × ArchiveFactory)) (factory : ArchiveFactory)
    (idCode : ArchiveIdCode) :
    (hasKey m idCode = true →
      RegisterArchiveType m factory idCode = RegisterOutcome.fatalAssert) ∧
    (hasKey m idCode = false →
      RegisterArchiveType m factory idCode =
        RegisterOutcome.registered ((idCode, factory) :: m) RESULT_SUCCESS) := by
  constructor <;> intro hk <;> simp [RegisterArchiveType, hk]

/-- Witness for C6: duplicate registration of `SDMC` aborts; registration
into an empty registry inserts and succeeds. -/
theorem register_archive_type_duplicate_fatal_witness :
    (RegisterArchiveType [(ArchiveIdCode.SDMC, facOkA)] facOkA ArchiveIdCode.SDMC =
      RegisterOutcome.fatalAssert) ∧
    (RegisterArchiveType [] facOkA ArchiveIdCode.SDMC =
      RegisterOutcome.registered [(ArchiveIdCode.SDMC, facOkA)] RESULT_SUCCESS) :=
  ⟨(register_archive_type_duplicate_fatal [(ArchiveIdCode.SDMC, facOkA)]
      facOkA ArchiveIdCode.SDMC).1 rfl,
   (register_archive_type_duplicate_fatal [] facOkA ArchiveIdCode.SDMC).2 rfl⟩

/-- Claim C2 (counterexample): with an empty registry, `FormatArchive`
returns the generic `Unimplemented` error — description `NotImplemented`
and summary `NotSupported` — not a `NotFound` error as the claim states. -/
theorem format_unregistered_not_notfound :
    FormatArchive [] ArchiveIdCode.SDMC [] =
      ResultCode.error .NotImplemented .FS .NotSupported .Permanent ∧
    FormatArchive [] ArchiveIdCode.SDMC [] ≠
      ResultCode.error .NotFound .FS .NotFound .Permanent ∧
    FormatArchive [] ArchiveIdCode.SDMC [] ≠
      ResultCode.error .FS_NotFound .FS .NotFound .Status := by
  decide

/-- Claim C2 (amended): for an unregistered id code `FormatArchive` fails
with the generic `Unimplemented` error; for a registered id code it returns
exactly the factory's `Format(path)`. -/
theorem format_archive_unregistered_unimplemented
    (m : List (ArchiveIdCode × ArchiveFactory)) (idCode : ArchiveIdCode)
    (p : Path) :
    (lookupKey m idCode = none →
      FormatArchive m idCode p = UnimplementedFunction ErrorModule.FS) ∧
    (∀ factory, lookupKey m idCode = some factory →
      FormatArchive m idCode p = factory.Format p) := by
  constructor
  · intro hl
    simp [FormatArchive, hl]
  · intro factory hl
    simp [FormatArchive, hl]

/-- Witness for the amended C2: the empty registry gives `Unimplemented`;
a registered failing factory's `Format` result is passed through. -/
theorem format_archive_unregistered_unimplemented_witness :
    (FormatArchive [] ArchiveIdCode.SDMC [] = UnimplementedFunction ErrorModule.FS) ∧
    (FormatArchive [(ArchiveIdCode.SDMC, facErr)] ArchiveIdCode.SDMC [] =
      ResultCode.error .NoData .FS .Canceled .Status) :=
  ⟨(format_archive_unregistered_unimplemented [] ArchiveIdCode.SDMC []).1 rfl,
   (format_archive_unregistered_unimplemented [(ArchiveIdCode.SDMC, facErr)]
      ArchiveIdCode.SDMC []).2 facErr rfl⟩

/-- Claim C1: cross-archive rename — invalid handle if either handle is
absent; same backend instance: success exactly when the backend rename
succeeds; different instances: always `Unimplemented`, for all paths. -/
theorem rename_between_archives_cases (s : FSState) (hs hd : Nat) (ps pd : Path) :
    ((GetArchive s hs = none ∨ GetArchive s hd = none) →
      RenameFileBetweenArchives s hs ps hd pd = ERR_INVALID_HANDLE ∧
      RenameDirectoryBetweenArchives s hs ps hd pd = ERR_INVALID_HANDLE) ∧
    (∀ src dest, GetArchive s hs = some src → GetArchive s hd = some dest →
      src.objId = dest.objId →
      ((RenameFileBetweenArchives s hs ps hd pd = RESULT_SUCCESS ↔
          src.RenameFile ps pd = true) ∧
       (RenameDirectoryBetweenArchives s hs ps hd pd = RESULT_SUCCESS ↔
          src.RenameDirectory ps pd = true))) ∧
    (∀ src dest, GetArchive s hs = some src → GetArchive s hd = some dest →
      src.objId ≠ dest.objId →
      RenameFileBetweenArchives s hs ps hd pd = UnimplementedFunction ErrorModule.FS ∧
      RenameDirectoryBetweenArchives s hs ps hd pd = UnimplementedFunction ErrorModule.FS) := by
  refine ⟨?_, ?_, ?_⟩
  · intro habs
    rcases habs with habs | habs
    · rcases hB : GetArchive s hd with _ | dest <;>
        simp [RenameFileBetweenArchives, RenameDirectoryBetweenArchives, habs, hB]
    · rcases hA : GetArchive s hs with _ | src <;>
        simp [RenameFileBetweenArchives, RenameDirectoryBetweenArchives, hA, habs]
  · intro src dest hA hB heq
    constructor
    · rcases hrf : src.RenameFile ps pd <;>
        simp [RenameFileBetweenArchives, hA, hB, heq, hrf, RESULT_SUCCESS]
    · rcases hrd : src.RenameDirectory ps pd <;>
        simp [RenameDirectoryBetweenArchives, hA, hB, heq, hrd, RESULT_SUCCESS]
  · intro src dest hA hB hne
    constructor <;>
      simp [RenameFileBetweenArchives, RenameDirectoryBetweenArchives, hA, hB, hne]

/-- Witness for C1: absent handle 9 gives `InvalidHandle`; handles 5/5 of
`stateOne` resolve to the same instance and mirror the backend outcome;
handles 1/2 of `stateTwo` resolve to distinct instances and give
`Unimplemented`. -/
theorem rename_between_archives_cases_witness :
    (RenameFileBetweenArchives stateOne 9 [] 5 [] = ERR_INVALID_HANDLE ∧
     RenameDirectoryBetweenArchives stateOne 9 [] 5 [] = ERR_INVALID_HANDLE) ∧
    ((RenameFileBetweenArchives stateOne 5 [] 5 [] = RESULT_SUCCESS ↔
        bkA.RenameFile [] [] = true) ∧
     (RenameDirectoryBetweenArchives stateOne 5 [] 5 [] = RESULT_SUCCESS ↔
        bkA.RenameDirectory [] [] = true)) ∧
    (RenameFileBetweenArchives stateTwo 1 [] 2 [] = UnimplementedFunction ErrorModule.FS ∧
     RenameDirectoryBetweenArchives stateTwo 1 [] 2 [] =
       UnimplementedFunction ErrorModule.FS) :=
  ⟨(rename_between_archives_cases stateOne 9 5 [] []).1 (Or.inl rfl),
   (rename_between_archives_cases stateOne 5 5 [] []).2.1 bkA bkA rfl rfl rfl,
   (rename_between_archives_cases stateTwo 1 2 [] []).2.2 bkA bkB rfl rfl
     (by decide)⟩

/-- Claim C3 (counterexample): dispatching the `GetAttributes` opcode on a
concrete open file does not write the success status word — it writes the
`Unimplemented` error, because the switch has no case for it. -/
theorem get_attributes_dispatch_not_success :
    ¬ ((File.SyncRequest sampleFile (opcodeBuf FileCommand.GetAttributes) 0).cmdBuff 1 =
        RESULT_SUCCESS.raw) := by
  decide

/-- Claim C3 (amended): the `GetAttributes` and `SetAttributes` opcodes
fall into the unknown-command path: the dispatch performs no backend work
and leaves the file unchanged, but writes the `Unimplemented` error status
word and returns that error, not success. -/
theorem attributes_opcodes_fall_to_unknown (f : File) (buf : Nat → Nat)
    (linkHandle : Nat)
    (h : buf 0 = FileCommand.GetAttributes ∨ buf 0 = FileCommand.SetAttributes) :
    (File.SyncRequest f buf linkHandle).events = [] ∧
    (File.SyncRequest f buf linkHandle).file = f ∧
    (File.SyncRequest f buf linkHandle).cmdBuff 1 =
      (UnimplementedFunction ErrorModule.FS).raw ∧
    (File.SyncRequest f buf linkHandle).result =
      Except.error (UnimplementedFunction ErrorModule.FS) := by
  rcases h with h | h <;>
    simp [File.SyncRequest, h, updWord, FileCommand.GetAttributes,
      FileCommand.SetAttributes, FileCommand.Read, FileCommand.Write,
      FileCommand.GetSize, FileCommand.SetSize, FileCommand.Close,
      FileCommand.Flush, FileCommand.OpenLinkFile, FileCommand.SetPriority,
      FileCommand.GetPriority]

/-- Witness for the amended C3 at the `SetAttributes` opcode. -/
theorem attributes_opcodes_fall_to_unknown_witness :
    (File.SyncRequest sampleFile (opcodeBuf FileCommand.SetAttributes) 0).events = [] ∧
    (File.SyncRequest sampleFile (opcodeBuf FileCommand.SetAttributes) 0).file =
      sampleFile ∧
    (File.SyncRequest sampleFile (opcodeBuf FileCommand.SetAttributes) 0).cmdBuff 1 =
      (UnimplementedFunction ErrorModule.FS).raw ∧
    (File.SyncRequest sampleFile (opcodeBuf FileCommand.SetAttributes) 0).result =
      Except.error (UnimplementedFunction ErrorModule.FS) :=
  attributes_opcodes_fall_to_unknown sampleFile
    (opcodeBuf FileCommand.SetAttributes) 0 (Or.inr rfl)

/-- Claim C4: a `Read` dispatch writes the backend's actual transferred
byte count into response word 2 (exactly, whenever it fits in a `u32`) and
the success sentinel into the status word, regardless of whether the count
is less than the requested length. -/
theorem read_dispatch_reports_count_and_success (f : File) (buf : Nat → Nat)
    (linkHandle : Nat) (hcmd : buf 0 = FileCommand.Read) :
    (File.SyncRequest f buf linkHandle).cmdBuff 2 =
      f.backend.Read (buf 1 % U32_MOD + (buf 2 % U32_MOD) * U32_MOD) (buf 3) % U32_MOD ∧
    (f.backend.Read (buf 1 % U32_MOD + (buf 2 % U32_MOD) * U32_MOD) (buf 3) < U32_MOD →
      (File.SyncRequest f buf linkHandle).cmdBuff 2 =
        f.backend.Read (buf 1 % U32_MOD + (buf 2 % U32_MOD) * U32_MOD) (buf 3)) ∧
    (File.SyncRequest f buf linkHandle).cmdBuff 1 = RESULT_SUCCESS.raw ∧
    (File.SyncRequest f buf linkHandle).result = Except.ok false := by
  refine ⟨?_, ?_, ?_, ?_⟩
  · simp [File.SyncRequest, hcmd, updWord]
  · intro hlt
    simp [File.SyncRequest, hcmd, updWord, Nat.mod_eq_of_lt hlt]
  · simp [File.SyncRequest, hcmd, updWord]
  · simp [File.SyncRequest, hcmd]

/-- Witness for C4: a backend transferring 5 bytes against a requested
length of 10 still reports success, with 5 in the response word. -/
theorem read_dispatch_reports_count_and_success_witness :
    (File.SyncRequest sampleFile readBuf 0).cmdBuff 2 = 5 ∧
    (File.SyncRequest sampleFile readBuf 0).cmdBuff 1 = RESULT_SUCCESS.raw ∧
    (File.SyncRequest sampleFile readBuf 0).result = Except.ok false ∧
    readBuf 3 = 10 := by
  have h := read_dispatch_reports_count_and_success sampleFile readBuf 0 rfl
  exact ⟨h.2.1 (by decide), h.2.2.1, h.2.2.2, rfl⟩

/-- Claim C8: an opcode outside the recognized command tables reports
`Unimplemented` through the status word and leaves all resource state
unchanged — in particular the file priority — with no backend calls. -/
theorem unknown_opcode_unimplemented_state_unchanged (f : File) (d : Directory)
    (buf dbuf : Nat → Nat) (linkHandle : Nat)
    (hf : buf 0 ∉ fileCommandTable) (hd : dbuf 0 ∉ dirCommandTable) :
    (File.SyncRequest f buf linkHandle).file = f ∧
    (File.SyncRequest f buf linkHandle).file.priority = f.priority ∧
    (File.SyncRequest f buf linkHandle).events = [] ∧
    (File.SyncRequest f buf linkHandle).cmdBuff 1 =
      (UnimplementedFunction ErrorModule.FS).raw ∧
    (Directory.SyncRequest d dbuf).events = [] ∧
    (Directory.SyncRequest d dbuf).cmdBuff 1 =
      (UnimplementedFunction ErrorModule.FS).raw := by
  simp only [fileCommandTable, List.mem_cons, List.not_mem_nil, or_false,
    not_or] at hf
  simp only [dirCommandTable, List.mem_cons, List.not_mem_nil, or_false,
    not_or] at hd
  obtain ⟨hf1, hf2, hf3, hf4, hf5, hf6, hf7, hf8, hf9, hf10, hf11, hf12,
    hf13, hf14⟩ := hf
  obtain ⟨hd1, hd2, hd3, hd4⟩ := hd
  simp [File.SyncRequest, Directory.SyncRequest, updWord, hf4, hf5, hf6,
    hf7, hf10, hf11, hf12, hf13, hf14, hd3, hd4]

/-- Witness for C8 at the unrecognized opcode 0. -/
theorem unknown_opcode_unimplemented_state_unchanged_witness :
    (File.SyncRequest sampleFile (opcodeBuf 0) 0).file = sampleFile ∧
    (File.SyncRequest sampleFile (opcodeBuf 0) 0).file.priority =
      sampleFile.priority ∧
    (File.SyncRequest sampleFile (opcodeBuf 0) 0).events = [] ∧
    (File.SyncRequest sampleFile (opcodeBuf 0) 0).cmdBuff 1 =
      (UnimplementedFunction ErrorModule.FS).raw ∧
    (Directory.SyncRequest sampleDir (opcodeBuf 0)).events = [] ∧
    (Directory.SyncRequest sampleDir (opcodeBuf 0)).cmdBuff 1 =
      (UnimplementedFunction ErrorModule.FS).raw :=
  unknown_opcode_unimplemented_state_unchanged sampleFile sampleDir
    (opcodeBuf 0) (opcodeBuf 0) 0 (by decide) (by decide)

/-- Claim C10: on an unknown opcode the file dispatcher returns the
`Unimplemented` error as its function result, while the directory
dispatcher writes the same error into the status word but returns a
success-valued `MakeResult<bool>(false)` from the function. -/
theorem unknown_opcode_result_channels (f : File) (d : Directory)
    (buf dbuf : Nat → Nat) (linkHandle : Nat)
    (hf : buf 0 ∉ fileCommandTable) (hd : dbuf 0 ∉ dirCommandTable) :
    (File.SyncRequest f buf linkHandle).result =
      Except.error (UnimplementedFunction ErrorModule.FS) ∧
    (Directory.SyncRequest d dbuf).result = Except.ok false ∧
    (Directory.SyncRequest d dbuf).cmdBuff 1 =
      (UnimplementedFunction ErrorModule.FS).raw := by
  simp only [fileCommandTable, List.mem_cons, List.not_mem_nil, or_false,
    not_or] at hf
  simp only [dirCommandTable, List.mem_cons, List.not_mem_nil, or_false,
    not_or] at hd
  obtain ⟨hf1, hf2, hf3, hf4, hf5, hf6, hf7, hf8, hf9, hf10, hf11, hf12,
    hf13, hf14⟩ := hf
  obtain ⟨hd1, hd2, hd3, hd4⟩ := hd
  simp [File.SyncRequest, Directory.SyncRequest, updWord, hf4, hf5, hf6,
    hf7, hf10, hf11, hf12, hf13, hf14, hd3, hd4]

/-- Witness for C10 at the unrecognized opcode `0xDEADBEEF`. -/
theorem unknown_opcode_result_channels_witness :
    (File.SyncRequest sampleFile (opcodeBuf 0xDEADBEEF) 0).result =
      Except.error (UnimplementedFunction ErrorModule.FS) ∧
    (Directory.SyncRequest sampleDir (opcodeBuf 0xDEADBEEF)).result =
      Except.ok false ∧
    (Directory.SyncRequest sampleDir (opcodeBuf 0xDEADBEEF)).cmdBuff 1 =
      (UnimplementedFunction ErrorModule.FS).raw :=
  unknown_opcode_result_channels sampleFile sampleDir (opcodeBuf 0xDEADBEEF)
    (opcodeBuf 0xDEADBEEF) 0 (by decide) (by decide)

/-! Correctness of the collision-skip handle allocator. -/

theorem findFree_spec (m : List (Nat × ArchiveBackend)) :
    ∀ (fuel h : Nat), h + fuel < U64_MOD →
      (∃ k, k < fuel ∧ hasKey m (h + k) = false) →
      hasKey m (findFree m h fuel) = false ∧ h ≤ findFree m h fuel ∧
        findFree m h fuel ≤ h + fuel := by
  intro fuel
  induction fuel with
  | zero =>
    intro h _ hex
    obtain ⟨k, hk, _⟩ := hex
    omega
  | succ n ih =>
    intro h hlt hex
    cases hocc : hasKey m h with
    | false =>
      have hval : findFree m h (Nat.succ n) = h := by
        simp [findFree, hocc]
      rw [hval]
      exact ⟨hocc, Nat.le_refl h, by omega⟩
    | true =>
      have hmod : (h + 1) % U64_MOD = h + 1 := Nat.mod_eq_of_lt (by omega)
      obtain ⟨k, hk, hfree⟩ := hex
      have hk0 : k ≠ 0 := by
        intro hk0
        subst hk0
        rw [Nat.add_zero, hocc] at hfree
        cases hfree
      have hex2 : ∃ k2, k2 < n ∧ hasKey m (h + 1 + k2) = false := by
        refine ⟨k - 1, by omega, ?_⟩
        have harith : h + 1 + (k - 1) = h + k := by omega
        rw [harith]
        exact hfree
      obtain ⟨hr1, hr2, hr3⟩ := ih (h + 1) (by omega) hex2
      have hval : findFree m h (Nat.succ n) = findFree m (h + 1) n := by
        simp [findFree, hocc, hmod]
      rw [hval]
      exact ⟨hr1, by omega, by omega⟩

/-- Pigeonhole: among the `length + 1` probes starting at `h`, at least one
value is not a key of the table. -/
theorem exists_free_probe (m : List (Nat × ArchiveBackend)) (h : Nat) :
    ∃ k, k ≤ m.length ∧ hasKey m (h + k) = false := by
  by_contra hc
  push_neg at hc
  have hmem : ∀ k, k ≤ m.length → (h + k) ∈ m.map Prod.fst := by
    intro k hk
    have hkk := hc k hk
    have htrue : hasKey m (h + k) = true := by
      cases hval : hasKey m (h + k)
      · exact absurd hval hkk
      · rfl
    rw [hasKey] at htrue
    obtain ⟨p, hp, hpe⟩ := List.any_eq_true.mp htrue
    have hfst : p.fst = h + k := by simpa using hpe
    exact hfst ▸ List.mem_map_of_mem Prod.fst hp
  have hsub : ∀ k ∈ Finset.range (m.length + 1),
      h + k ∈ (m.map Prod.fst).toFinset := by
    intro k hk
    rw [List.mem_toFinset]
    exact hmem k (Nat.lt_succ_iff.mp (Finset.mem_range.mp hk))
  have hinj : Set.InjOn (fun k => h + k) (Finset.range (m.length + 1)) := by
    intro a _ b _ hab
    simpa using hab
  have hcard := Finset.card_le_card_of_injOn _ hsub hinj
  rw [Finset.card_range] at hcard
  have hlen := List.toFinset_card_le (m.map Prod.fst)
  rw [List.length_map] at hlen
  omega

/-- The allocated handle is free, at least the current counter value, and
within `length + 1` of it (no wraparound under the stated bound). -/
theorem allocHandle_spec (m : List (Nat × ArchiveBackend)) (next : Nat)
    (hb : next + m.length + 1 < U64_MOD) :
    hasKey m (allocHandle m next) = false ∧ next ≤ allocHandle m next ∧
      allocHandle m next ≤ next + m.length + 1 := by
  obtain ⟨k, hk, hfree⟩ := exists_free_probe m next
  have hres := findFree_spec m (m.length + 1) next (by omega) ⟨k, by omega, hfree⟩
  simpa [allocHandle] using hres

/-- Claim C9: a successful `OpenArchive` returns a nonzero handle absent
from the table at allocation time; a second open yields a distinct handle,
and closing the first leaves the second resolvable. -/
theorem open_archive_handle_uniqueness (s : FSState)
    (id1 id2 : ArchiveIdCode) (p1 p2 : Path) (f1 f2 : ArchiveFactory)
    (b1 b2 : ArchiveBackend)
    (hnz : s.nextHandle ≠ 0)
    (hb : s.nextHandle + 2 * s.handleMap.length + 5 < U64_MOD)
    (hf1 : lookupKey s.idCodeMap id1 = some f1)
    (ho1 : f1.Open p1 = Except.ok b1)
    (hf2 : lookupKey s.idCodeMap id2 = some f2)
    (ho2 : f2.Open p2 = Except.ok b2) :
    ∃ h1 h2 s1 s2,
      OpenArchive s id1 p1 = (Except.ok h1, s1) ∧
      h1 ≠ 0 ∧ hasKey s.handleMap h1 = false ∧
      OpenArchive s1 id2 p2 = (Except.ok h2, s2) ∧
      h2 ≠ h1 ∧ h2 ≠ 0 ∧
      (CloseArchive s2 h1).fst = RESULT_SUCCESS ∧
      GetArchive (CloseArchive s2 h1).snd h2 = some b2 := by
  obtain ⟨h1, hh1def⟩ : ∃ x, allocHandle s.handleMap s.nextHandle = x := ⟨_, rfl⟩
  obtain ⟨ha1free, ha1lb, ha1ub⟩ :=
    allocHandle_spec s.handleMap s.nextHandle (by omega)
  rw [hh1def] at ha1free ha1lb ha1ub
  have hmod1 : (h1 + 1) % U64_MOD = h1 + 1 := Nat.mod_eq_of_lt (by omega)
  have hopen1 : OpenArchive s id1 p1 =
      (Except.ok h1, ⟨s.idCodeMap, (h1, b1) :: s.handleMap, h1 + 1⟩) := by
    simp only [OpenArchive, hf1, ho1, hh1def, hmod1]
  have hb2 : (h1 + 1) + ((h1, b1) :: s.handleMap).length + 1 < U64_MOD := by
    simp only [List.length_cons]
    omega
  obtain ⟨h2, hh2def⟩ :
      ∃ x, allocHandle ((h1, b1) :: s.handleMap) (h1 + 1) = x := ⟨_, rfl⟩
  obtain ⟨ha2free, ha2lb, ha2ub⟩ :=
    allocHandle_spec ((h1, b1) :: s.handleMap) (h1 + 1) hb2
  rw [hh2def] at ha2free ha2lb ha2ub
  simp only [List.length_cons] at ha2ub
  have hmod2 : (h2 + 1) % U64_MOD = h2 + 1 := Nat.mod_eq_of_lt (by omega)
  have hopen2 : OpenArchive ⟨s.idCodeMap, (h1, b1) :: s.handleMap, h1 + 1⟩ id2 p2 =
      (Except.ok h2,
        ⟨s.idCodeMap, (h2, b2) :: (h1, b1) :: s.handleMap, h2 + 1⟩) := by
    simp only [OpenArchive, hf2, ho2, hh2def, hmod2]
  have hne12 : h2 ≠ h1 := by omega
  have hbne : (h2 != h1) = true := by
    simpa [bne_iff_ne] using hne12
  have hkey1 : hasKey ((h2, b2) :: (h1, b1) :: s.handleMap) h1 = true := by
    simp [hasKey]
  have hclose :
      (CloseArchive ⟨s.idCodeMap, (h2, b2) :: (h1, b1) :: s.handleMap, h2 + 1⟩
        h1).fst = RESULT_SUCCESS := by
    simp [CloseArchive, hkey1]
  have hresolve :
      GetArchive
        (CloseArchive ⟨s.idCodeMap, (h2, b2) :: (h1, b1) :: s.handleMap, h2 + 1⟩
          h1).snd h2 = some b2 := by
    simp [CloseArchive, hkey1, GetArchive, eraseKey, lookupKey, List.filter_cons,
      hbne]
  exact ⟨h1, h2, _, _, hopen1, by omega, ha1free, hopen2, hne12, by omega,
    hclose, hresolve⟩

/-- Witness for C9: opening the SDMC archive twice from the freshly
initialized one-factory state, then closing the first handle. -/
theorem open_archive_handle_uniqueness_witness :
    ∃ h1 h2 s1 s2,
      OpenArchive stateRegOk ArchiveIdCode.SDMC [] = (Except.ok h1, s1) ∧
      h1 ≠ 0 ∧ hasKey stateRegOk.handleMap h1 = false ∧
      OpenArchive s1 ArchiveIdCode.SDMC [] = (Except.ok h2, s2) ∧
      h2 ≠ h1 ∧ h2 ≠ 0 ∧
      (CloseArchive s2 h1).fst = RESULT_SUCCESS ∧
      GetArchive (CloseArchive s2 h1).snd h2 = some bkA :=
  open_archive_handle_uniqueness stateRegOk ArchiveIdCode.SDMC
    ArchiveIdCode.SDMC [] [] facOkA facOkA bkA bkA (by decide) (by decide)
    rfl rfl rfl rfl

end ArchiveSvc
